import Mathlib

/-!
Verification of the JobPulse BDJobs API client core
(`src/jobpulse/{config,locations,models,http_client,scraper}.py`).

The embedding models:
  * decoded JSON bodies as an inductive `Json` (numbers as `Int`; the
    API schema only uses integral numbers and strings, and no claim
    depends on float values);
  * the pydantic models `SearchResult`, `CommonFilters`, `SearchResults`
    as structures with explicit parsers following pydantic field
    semantics (required vs defaulted fields, `default_factory=list`,
    `str_strip_whitespace` on `SearchResult`, extra keys ignored,
    nested-model validation).  ISO-datetime validity of the two
    timestamp fields is abstracted: they are kept as optional opaque
    strings, since no claim depends on datetime parsing;
  * the location table and lookups of `locations.py`;
  * `build_search_url` as a pure string function;
  * `api_get` (tenacity retry loop) driven by an explicit per-attempt
    transport outcome function, returning the result together with the
    number of attempts actually made;
  * `search_jobs` composing validation, URL building, transport and
    parsing, with Python exceptions as an explicit error type `PyExc`.
-/

/-- A decoded JSON value (`response.json()` output). -/
inductive Json where
  | null
  | bool (b : Bool)
  | num (n : Int)
  | str (s : String)
  | arr (elems : List Json)
  | obj (fields : List (String × Json))
deriving Repr, Inhabited

/-- Python `str.lower()` (ASCII case folding; every string the claims
touch is ASCII). -/
def pyLower (s : String) : String :=
  String.mk (s.data.map Char.toLower)

/-- A character stripped by Python `str.strip()` (ASCII whitespace;
the Unicode space classes are not exercised by any claim). -/
def isPyWhitespace (c : Char) : Bool :=
  c == ' ' || c == '\t' || c == '\n' || c == '\r' || c == '\x0b' || c == '\x0c'

/-- Python `str.strip()`: remove leading and trailing whitespace. -/
def pyStrip (s : String) : String :=
  String.mk (((s.data.dropWhile isPyWhitespace).reverse.dropWhile
    isPyWhitespace).reverse)

/-- Python `str.startswith(pre)`. -/
def strStartsWith (pre s : String) : Bool :=
  pre.data.isPrefixOf s.data

/-- Python equality of a decoded JSON value with the string literal
`"1"` (`status_code == "1"`): true exactly for the JSON string `"1"`;
values of any other JSON type never equal a Python `str`. -/
def eqStrOne : Json → Bool
  | Json.str s => s == "1"
  | _ => false

/-- `dict.get(key)`: first binding of `key` in the field list, if any. -/
def lookupDict (fields : List (String × Json)) (key : String) : Option Json :=
  (fields.find? (fun p => p.1 == key)).map (fun p => p.2)

/-- Python truthiness of a decoded JSON value (`if status_code:`). -/
def pyTruthy : Json → Bool
  | Json.null => false
  | Json.bool b => b
  | Json.num n => n != 0
  | Json.str s => s != ""
  | Json.arr xs => !xs.isEmpty
  | Json.obj flds => !flds.isEmpty

/-- Approximate Python `str()` of a decoded JSON value, used only to
render the message field of an API error.  Container values are
abstracted (no claim depends on their rendering). -/
def jsonToStr : Json → String
  | Json.null => "None"
  | Json.bool true => "True"
  | Json.bool false => "False"
  | Json.num n => toString n
  | Json.str s => s
  | Json.arr _ => "<list>"
  | Json.obj _ => "<dict>"

/-! ## config.py -/

/-- `config.BASE_URL` -/
def BASE_URL : String := "https://bdjobs.com"

/-- `config.API_BASE_URL` -/
def API_BASE_URL : String := "https://api.bdjobs.com"

/-- `config.MAX_RETRIES` -/
def MAX_RETRIES : Nat := 3

/-! ## models.py — pydantic models and their parsers -/

/-- `models.SearchResult`: one job listing.  The two datetime fields
are kept as opaque optional strings (see module comment). -/
structure SearchResult where
  Jobid : String
  AdType : String := "0"
  jobTitle : String
  companyName : String
  JobTitleBng : String := ""
  deadline : String := ""
  deadlineDB : Option String := none
  publishDate : Option String := none
  eduRec : String := ""
  experience : String := ""
  standout : Int := 0
  logo : String := ""
  lantype : Int := 0
  location : String := ""
  JobLang : String := "1"
  jobContext : Option String := none
  isEarlyAccess : Bool := false
  OnlineJob : Bool := false
deriving Repr, DecidableEq, Inhabited

/-- `SearchResult.get_job_url`: `f"{BASE_URL}/jobs/details/{self.Jobid}"`. -/
def SearchResult.get_job_url (r : SearchResult) : String :=
  BASE_URL ++ "/jobs/details/" ++ r.Jobid

/-- `SearchResult.is_remote` -/
def SearchResult.is_remote (r : SearchResult) : Bool :=
  r.OnlineJob

/-- `models.CommonFilters`: summary metadata, every field defaulted. -/
structure CommonFilters where
  total_records_found : Int := 0
  showd : String := "1"
  totalpages : Int := 0
  total_vacancies : Int := 0
deriving Repr, DecidableEq, Inhabited

/-- `models.SearchResults`: one result page. -/
structure SearchResults where
  message : String
  statuscode : String
  data : List SearchResult := []
  premiumData : List SearchResult := []
  common : CommonFilters
deriving Repr, DecidableEq, Inhabited

/-- `SearchResults.all_jobs`: regular listings followed by premium ones. -/
def SearchResults.all_jobs (r : SearchResults) : List SearchResult :=
  r.data ++ r.premiumData

/-- `SearchResults.total_results`: `len(self.data) + len(self.premiumData)`. -/
def SearchResults.total_results (r : SearchResults) : Nat :=
  r.data.length + r.premiumData.length

/-- `SearchResults.is_success`:
`self.statuscode == "1" and self.message.lower() == "success"`. -/
def SearchResults.is_success (r : SearchResults) : Bool :=
  r.statuscode == "1" && pyLower r.message == "success"

/-- `SearchResults.get_remote_jobs` -/
def SearchResults.get_remote_jobs (r : SearchResults) : List SearchResult :=
  r.all_jobs.filter (fun job => job.is_remote)

/-! ### pydantic field validation helpers

Lax-mode coercions between primitive types are not exercised by the
API schema (all schema fields receive values of their declared JSON
type or are absent); the parsers accept exactly the declared type. -/

/-- A required `str` field: present and a JSON string, else a
validation error. -/
def reqStrField (flds : List (String × Json)) (key : String) :
    Except String String :=
  match lookupDict flds key with
  | some (Json.str s) => Except.ok s
  | some _ => Except.error (key ++ ": input should be a valid string")
  | none => Except.error (key ++ ": field required")

/-- A `str` field with a default: absent means the default. -/
def optStrField (flds : List (String × Json)) (key : String)
    (dflt : String) : Except String String :=
  match lookupDict flds key with
  | some (Json.str s) => Except.ok s
  | some _ => Except.error (key ++ ": input should be a valid string")
  | none => Except.ok dflt

/-- An `int` field with a default. -/
def optIntField (flds : List (String × Json)) (key : String)
    (dflt : Int) : Except String Int :=
  match lookupDict flds key with
  | some (Json.num n) => Except.ok n
  | some _ => Except.error (key ++ ": input should be a valid integer")
  | none => Except.ok dflt

/-- A `bool` field with a default. -/
def optBoolField (flds : List (String × Json)) (key : String)
    (dflt : Bool) : Except String Bool :=
  match lookupDict flds key with
  | some (Json.bool b) => Except.ok b
  | some _ => Except.error (key ++ ": input should be a valid boolean")
  | none => Except.ok dflt

/-- An `Optional` string-like field (datetime kept opaque, or
`Optional[str]`): absent or `null` means `none`. -/
def optNullableStrField (flds : List (String × Json)) (key : String) :
    Except String (Option String) :=
  match lookupDict flds key with
  | some (Json.str s) => Except.ok (some s)
  | some Json.null => Except.ok none
  | some _ => Except.error (key ++ ": input should be a valid value")
  | none => Except.ok none

/-- pydantic construction of `SearchResult` from a decoded JSON value.
`Config.str_strip_whitespace = True` strips every string value; extra
keys are ignored. -/
def parseSearchResult (j : Json) : Except String SearchResult :=
  match j with
  | Json.obj flds => do
    let jobid ← reqStrField flds "Jobid"
    let adType ← optStrField flds "AdType" "0"
    let jobTitle ← reqStrField flds "jobTitle"
    let companyName ← reqStrField flds "companyName"
    let jobTitleBng ← optStrField flds "JobTitleBng" ""
    let deadline ← optStrField flds "deadline" ""
    let deadlineDB ← optNullableStrField flds "deadlineDB"
    let publishDate ← optNullableStrField flds "publishDate"
    let eduRec ← optStrField flds "eduRec" ""
    let experience ← optStrField flds "experience" ""
    let standout ← optIntField flds "standout" 0
    let logo ← optStrField flds "logo" ""
    let lantype ← optIntField flds "lantype" 0
    let location ← optStrField flds "location" ""
    let jobLang ← optStrField flds "JobLang" "1"
    let jobContext ← optNullableStrField flds "jobContext"
    let isEarlyAccess ← optBoolField flds "isEarlyAccess" false
    let onlineJob ← optBoolField flds "OnlineJob" false
    Except.ok
      { Jobid := pyStrip jobid
        AdType := pyStrip adType
        jobTitle := pyStrip jobTitle
        companyName := pyStrip companyName
        JobTitleBng := pyStrip jobTitleBng
        deadline := pyStrip deadline
        deadlineDB := deadlineDB
        publishDate := publishDate
        eduRec := pyStrip eduRec
        experience := pyStrip experience
        standout := standout
        logo := pyStrip logo
        lantype := lantype
        location := pyStrip location
        JobLang := pyStrip jobLang
        jobContext := jobContext.map (fun s => pyStrip s)
        isEarlyAccess := isEarlyAccess
        OnlineJob := onlineJob }
  | _ => Except.error "input should be a valid dictionary"

/-- pydantic construction of `CommonFilters` (no strip config here). -/
def parseCommonFilters (j : Json) : Except String CommonFilters :=
  match j with
  | Json.obj flds => do
    let totalRecords ← optIntField flds "total_records_found" 0
    let showd ← optStrField flds "showd" "1"
    let totalpages ← optIntField flds "totalpages" 0
    let totalVacancies ← optIntField flds "total_vacancies" 0
    Except.ok
      { total_records_found := totalRecords
        showd := showd
        totalpages := totalpages
        total_vacancies := totalVacancies }
  | _ => Except.error "common: input should be a valid dictionary"

/-- A `List[SearchResult]` field with `default_factory=list`: absent
means `[]`; present must be a JSON array of valid listings. -/
def parseResultList (v : Option Json) (key : String) :
    Except String (List SearchResult) :=
  match v with
  | none => Except.ok []
  | some (Json.arr xs) => xs.mapM parseSearchResult
  | some _ => Except.error (key ++ ": input should be a valid list")

/-- pydantic construction of `SearchResults` from a decoded JSON value
(`SearchResults(**response_data)` after the caller has checked the
body is a dict). -/
def parseSearchResults (j : Json) : Except String SearchResults :=
  match j with
  | Json.obj flds => do
    let message ← reqStrField flds "message"
    let statuscode ← reqStrField flds "statuscode"
    let data ← parseResultList (lookupDict flds "data") "data"
    let premiumData ← parseResultList (lookupDict flds "premiumData") "premiumData"
    let common ←
      match lookupDict flds "common" with
      | some cj => parseCommonFilters cj
      | none => Except.error "common: field required"
    Except.ok
      { message := message
        statuscode := statuscode
        data := data
        premiumData := premiumData
        common := common }
  | _ => Except.error "input should be a valid dictionary"

/-! ## locations.py -/

/-- One entry of `CITY_ID_MAP` (`{"id": ..., "name": ...}`). -/
structure CityEntry where
  id : String
  name : String
deriving Repr, DecidableEq, Inhabited

/-- `locations.CITY_ID_MAP`: the static city table, in source order. -/
def CITY_ID_MAP : List CityEntry := [
  ⟨"1003", "Dhaka Division"⟩,
  ⟨"14", "Dhaka"⟩,
  ⟨"16", "Faridpur"⟩,
  ⟨"19", "Gazipur"⟩,
  ⟨"20", "Gopalganj"⟩,
  ⟨"29", "Kishoreganj"⟩,
  ⟨"34", "Madaripur"⟩,
  ⟨"36", "Manikganj"⟩,
  ⟨"39", "Munshiganj"⟩,
  ⟨"43", "Narayanganj"⟩,
  ⟨"44", "Narsingdi"⟩,
  ⟨"53", "Rajbari"⟩,
  ⟨"58", "Shariatpur"⟩,
  ⟨"63", "Tangail"⟩,
  ⟨"1002", "Chattogram Division"⟩,
  ⟨"3", "Bandarban"⟩,
  ⟨"1", "Brahmanbaria"⟩,
  ⟨"8", "Chandpur"⟩,
  ⟨"10", "Chattogram"⟩,
  ⟨"13", "Cox\x27s Bazar"⟩,
  ⟨"12", "Cumilla"⟩,
  ⟨"17", "Feni"⟩,
  ⟨"27", "Khagrachhari"⟩,
  ⟨"33", "Lakshmipur"⟩,
  ⟨"48", "Noakhali"⟩,
  ⟨"55", "Rangamati"⟩,
  ⟨"1001", "Barishal Division"⟩,
  ⟨"7", "Barguna"⟩,
  ⟨"4", "Barishal"⟩,
  ⟨"5", "Bhola"⟩,
  ⟨"24", "Jhalakathi"⟩,
  ⟨"51", "Patuakhali"⟩,
  ⟨"52", "Pirojpur"⟩,
  ⟨"1004", "Khulna Division"⟩,
  ⟨"2", "Bagerhat"⟩,
  ⟨"11", "Chuadanga"⟩,
  ⟨"23", "Jashore"⟩,
  ⟨"25", "Jhenaidah"⟩,
  ⟨"28", "Khulna"⟩,
  ⟨"31", "Kushtia"⟩,
  ⟨"35", "Magura"⟩,
  ⟨"37", "Meherpur"⟩,
  ⟨"42", "Narail"⟩,
  ⟨"57", "Satkhira"⟩,
  ⟨"1005", "Mymensingh Division"⟩,
  ⟨"22", "Jamalpur"⟩,
  ⟨"40", "Mymensingh"⟩,
  ⟨"46", "Netrokona"⟩,
  ⟨"59", "Sherpur"⟩,
  ⟨"1006", "Rajshahi Division"⟩,
  ⟨"6", "Bogura"⟩,
  ⟨"9", "Chapainawabganj"⟩,
  ⟨"26", "Joypurhat"⟩,
  ⟨"41", "Naogaon"⟩,
  ⟨"45", "Natore"⟩,
  ⟨"49", "Pabna"⟩,
  ⟨"54", "Rajshahi"⟩,
  ⟨"60", "Sirajganj"⟩,
  ⟨"1007", "Rangpur Division"⟩,
  ⟨"15", "Dinajpur"⟩,
  ⟨"18", "Gaibandha"⟩,
  ⟨"30", "Kurigram"⟩,
  ⟨"32", "Lalmonirhat"⟩,
  ⟨"47", "Nilphamari"⟩,
  ⟨"50", "Panchagarh"⟩,
  ⟨"56", "Rangpur"⟩,
  ⟨"64", "Thakurgaon"⟩,
  ⟨"1008", "Sylhet Division"⟩,
  ⟨"21", "Habiganj"⟩,
  ⟨"38", "Moulvibazar"⟩,
  ⟨"61", "Sunamganj"⟩,
  ⟨"62", "Sylhet"⟩]

/-- `locations.get_city_id`: `None` on empty input, else the id of the
first entry whose lowercased name equals the lowercased, trimmed
input. -/
def get_city_id (city_name : String) : Option String :=
  if city_name == "" then none
  else
    let city_name_lower := pyStrip (pyLower city_name)
    match CITY_ID_MAP.find? (fun city => pyLower city.name == city_name_lower) with
    | some city => some city.id
    | none => none

/-- `locations.get_city_name`: `None` on empty input, else the name of
the first entry with the given id. -/
def get_city_name (city_id : String) : Option String :=
  if city_id == "" then none
  else
    match CITY_ID_MAP.find? (fun city => city.id == city_id) with
    | some city => some city.name
    | none => none

/-! ## scraper.py — build_search_url -/

/-- CPython `urllib.parse.quote_plus`: UTF-8 bytes of the input, with
unreserved bytes (`ALPHA / DIGIT / "_" / "." / "-" / "~"`) kept, space
encoded as `+`, and every other byte percent-encoded in uppercase hex. -/
def hexDigitUpper (n : Nat) : Char :=
  if n < 10 then Char.ofNat (48 + n) else Char.ofNat (55 + n)

/-- See `hexDigitUpper`; encoding of one UTF-8 byte. -/
def quotePlusByte (b : UInt8) : String :=
  let n := b.toNat
  if n == 32 then "+"
  else if (65 ≤ n && n ≤ 90) || (97 ≤ n && n ≤ 122) || (48 ≤ n && n ≤ 57)
       || n == 95 || n == 46 || n == 45 || n == 126 then
    String.singleton (Char.ofNat n)
  else
    "%" ++ String.singleton (hexDigitUpper (n / 16))
        ++ String.singleton (hexDigitUpper (n % 16))

/-- `urllib.parse.quote_plus` on a whole string. -/
def quote_plus (s : String) : String :=
  String.join (s.toUTF8.toList.map quotePlusByte)

/-- The range encoding of `build_search_url` (lines 73, 76, 79):
`f"{start}/{end}" if start > 0 or end > 0 else ""`. -/
def rangeSegment (rstart rend : Int) : String :=
  if rstart > 0 ∨ rend > 0 then toString rstart ++ "/" ++ toString rend else ""

/-- The location encoding of `build_search_url` (lines 82-83):
`get_city_id(location) if location else None`, then `""` for `None`. -/
def locationParam (location : String) : String :=
  let location_id := if location != "" then get_city_id location else none
  match location_id with
  | some i => i
  | none => ""

/-- The Filter Set: the parameters of `build_search_url` /
`search_jobs`, with the Python defaults. -/
structure FilterSet where
  keyword : String
  location : String := ""
  page : Int := 1
  results_per_page : Int := 50
  job_type : String := ""
  job_level : String := ""
  age_start : Int := 0
  age_end : Int := 0
  posted_within : String := ""
  salary_start : Int := 0
  salary_end : Int := 0
  experience_start : Int := 0
  experience_end : Int := 0
  is_pro : Int := 0
  is_fresher : Bool := false
  gender : String := ""
  toggle_jobs : Bool := true
  armyp : String := ""
  workplace : String := ""
  facilities_for_pwd : String := ""
deriving Repr, DecidableEq, Inhabited

/-- The fixed part of the search URL up to `location=` (f-string
lines 87-94). -/
def urlHead : String :=
  API_BASE_URL ++ "/Jobs/api/JobSearch/GetJobSearch?" ++
  "Icat=&" ++ "industry=&" ++ "category=&" ++ "org=&" ++ "jobNature=&" ++
  "Fcat=&" ++ "location="

/-- The URL segment from after the location value up to `qAge=`
(f-string lines 94-102). -/
def urlMidA (fs : FilterSet) : String :=
  "&" ++ "Qot=&" ++
  "jobType=" ++ quote_plus fs.job_type ++ "&" ++
  "jobLevel=" ++ quote_plus fs.job_level ++ "&" ++
  "postedWithin=" ++ fs.posted_within ++ "&" ++
  "deadline=&" ++
  "keyword=" ++ quote_plus fs.keyword ++ "&" ++
  "pg=" ++ toString fs.page ++ "&" ++
  "qAge="

/-- The URL segment between the age range and the salary range
(f-string lines 102-103). -/
def urlMidB : String := "&" ++ "Salary="

/-- The URL segment between the salary range and the experience range
(f-string lines 103-104). -/
def urlMidC : String := "&" ++ "experience="

/-- The URL tail after the experience range (f-string lines 104-124). -/
def urlTail (fs : FilterSet) : String :=
  "&" ++
  "gender=" ++ fs.gender ++ "&" ++
  "MExp=&" ++ "genderB=&" ++ "MPostings=&" ++ "MCat=&" ++ "version=&" ++
  "rpp=" ++ toString fs.results_per_page ++ "&" ++
  "Newspaper=&" ++
  "armyp=" ++ fs.armyp ++ "&" ++
  "QDisablePerson=&" ++ "pwd=&" ++
  "workplace=" ++ fs.workplace ++ "&" ++
  "facilitiesForPWD=" ++ fs.facilities_for_pwd ++ "&" ++
  "SaveFilterList=&" ++ "UserFilterName=&" ++ "HUserFilterName=&" ++
  "earlyJobAccess=&" ++
  "isPro=" ++ toString fs.is_pro ++ "&" ++
  "ToggleJobs=" ++ (if fs.toggle_jobs then "true" else "false") ++ "&" ++
  "isFresher=" ++ (if fs.is_fresher then "true" else "false")

/-- `scraper.build_search_url`: the complete search URL, assembled
exactly as the source f-string, with the three range segments and the
location parameter computed by `rangeSegment` and `locationParam`. -/
def build_search_url (fs : FilterSet) : String :=
  urlHead ++ locationParam fs.location ++
  urlMidA fs ++ rangeSegment fs.age_start fs.age_end ++
  urlMidB ++ rangeSegment fs.salary_start fs.salary_end ++
  urlMidC ++ rangeSegment fs.experience_start fs.experience_end ++
  urlTail fs

/-! ## http_client.py — api_get and the retry policy -/

/-- Python exceptions visible at the client interface, with their
message.  `httpError` stands for `httpx.HTTPError` raised by the
request or by `raise_for_status` (other than a timeout); `timeoutError`
for `httpx.TimeoutException`. -/
inductive PyExc where
  | valueError (msg : String)
  | runtimeError (msg : String)
  | typeError (msg : String)
  | httpError (msg : String)
  | timeoutError (msg : String)
deriving Repr, DecidableEq, Inhabited

/-- The tenacity predicate
`retry_if_exception_type((httpx.HTTPError, httpx.TimeoutException))`:
only transport-level exceptions are retried. -/
def retryable : PyExc → Bool
  | PyExc.httpError _ => true
  | PyExc.timeoutError _ => true
  | _ => false

/-- The API-level status check of `api_get` (lines 149-154): when the
decoded body is a dict whose `statuscode` is present, truthy, and not
equal to `"1"`, raise `RuntimeError` with the body's message (or a
placeholder); otherwise return the body unchanged. -/
def apiStatusCheck (data : Json) : Except PyExc Json :=
  match data with
  | Json.obj flds =>
    match lookupDict flds "statuscode" with
    | some v =>
      if pyTruthy v && !eqStrOne v then
        let error_msg :=
          match lookupDict flds "message" with
          | some m => jsonToStr m
          | none => "Unknown API error"
        Except.error (PyExc.runtimeError ("API error: " ++ error_msg))
      else Except.ok data
    | none => Except.ok data
  | _ => Except.ok data

/-- What the transport does on one attempt of `api_get`: raise a
non-timeout `httpx` error, time out, deliver a non-JSON body
(`response.json()` raises `ValueError`), or deliver a decoded JSON
body. -/
inductive AttemptOutcome where
  | networkError (msg : String)
  | timeout (msg : String)
  | invalidJson (msg : String)
  | body (j : Json)
deriving Repr, Inhabited

/-- One attempt of the `api_get` body: transport failures and JSON
failures become their exceptions, a decoded body goes through the
API-level status check. -/
def singleAttempt : AttemptOutcome → Except PyExc Json
  | AttemptOutcome.networkError m => Except.error (PyExc.httpError m)
  | AttemptOutcome.timeout m => Except.error (PyExc.timeoutError m)
  | AttemptOutcome.invalidJson m =>
    Except.error (PyExc.valueError ("API returned invalid JSON: " ++ m))
  | AttemptOutcome.body j => apiStatusCheck j

/-- The tenacity loop of `api_get` (`stop_after_attempt(MAX_RETRIES)`,
`reraise=True`): `attempt` is the 1-based attempt number, `remaining`
the attempts still allowed (including the current one).  Returns the
final result together with the number of the attempt on which the
loop stopped. -/
def apiGetAux (outcome : Nat → AttemptOutcome) :
    Nat → Nat → Except PyExc Json × Nat
  | attempt, 0 =>
    (match singleAttempt (outcome attempt) with
     | Except.ok j => (Except.ok j, attempt)
     | Except.error e => (Except.error e, attempt))
  | attempt, 1 =>
    (match singleAttempt (outcome attempt) with
     | Except.ok j => (Except.ok j, attempt)
     | Except.error e => (Except.error e, attempt))
  | attempt, r + 2 =>
    (match singleAttempt (outcome attempt) with
     | Except.ok j => (Except.ok j, attempt)
     | Except.error e =>
       if retryable e then apiGetAux outcome (attempt + 1) (r + 1)
       else (Except.error e, attempt))

/-- `http_client.api_get`, driven by the per-attempt outcomes of the
transport: the result of the retry loop and the total number of
attempts made. -/
def api_get (outcome : Nat → AttemptOutcome) : Except PyExc Json × Nat :=
  apiGetAux outcome 1 MAX_RETRIES

/-! ## scraper.py — search_jobs -/

/-- `scraper.search_jobs`: validation, URL building, transport, then
pydantic parsing with `ValidationError` re-raised as
`ValueError("Invalid API response format: ...")`.  The transport is
abstracted as a function from the request URL to per-attempt
outcomes. -/
def search_jobs (fs : FilterSet)
    (transport : String → Nat → AttemptOutcome) :
    Except PyExc SearchResults :=
  if fs.keyword == "" || pyStrip fs.keyword == "" then
    Except.error (PyExc.valueError "Keyword parameter is required and cannot be empty")
  else if fs.page < 1 then
    Except.error (PyExc.valueError "Page number must be >= 1")
  else if fs.results_per_page < 1 || fs.results_per_page > 100 then
    Except.error (PyExc.valueError "Results per page must be between 1 and 100")
  else
    match (api_get (transport (build_search_url fs))).1 with
    | Except.error e => Except.error e
    | Except.ok data =>
      match data with
      | Json.obj _ =>
        match parseSearchResults data with
        | Except.ok results => Except.ok results
        | Except.error e =>
          Except.error (PyExc.valueError ("Invalid API response format: " ++ e))
      | _ => Except.error (PyExc.typeError "argument after ** must be a mapping")

/-- The error taxonomy of the spec (§7). -/
inductive ErrKind where
  | validation
  | transport
  | api
  | format
deriving Repr, DecidableEq

/-- Classification of an exception escaping `search_jobs` into the
spec's taxonomy.  Validation and format errors share the Python
exception type `ValueError` and are told apart by the fixed message
prefixes the code attaches to format errors; transport and API errors
have distinct exception types. -/
def classifyExc : PyExc → ErrKind
  | PyExc.httpError _ => ErrKind.transport
  | PyExc.timeoutError _ => ErrKind.transport
  | PyExc.runtimeError _ => ErrKind.api
  | PyExc.typeError _ => ErrKind.format
  | PyExc.valueError m =>
    if strStartsWith "Invalid API response format: " m
       || strStartsWith "API returned invalid JSON: " m then ErrKind.format
    else ErrKind.validation

/-! ## Concrete scenarios used by the theorems and their witnesses -/

/-- A Filter Set passing all validation checks. -/
def fsValid : FilterSet := { keyword := "python developer" }

/-- A Filter Set with a whitespace-only keyword. -/
def fsBlankKeyword : FilterSet := { keyword := "   " }

/-- A Filter Set with an unknown location name. -/
def fsUnknownLocation : FilterSet := { keyword := "nurse", location := "Atlantis" }

/-- A Filter Set with mixed zero and nonzero range endpoints. -/
def fsRanges : FilterSet :=
  { keyword := "qa", age_start := 18, age_end := 30, salary_end := 50000 }

/-- A transport that times out on every attempt. -/
def tTimeoutAll : String → Nat → AttemptOutcome :=
  fun _ _ => AttemptOutcome.timeout "read timeout"

/-- A well-formed body carrying a non-success status sentinel. -/
def apiErrorBody : Json :=
  Json.obj [("statuscode", Json.str "0"), ("message", Json.str "Invalid Keyword")]

/-- A transport that always delivers `apiErrorBody`. -/
def tApiError : String → Nat → AttemptOutcome :=
  fun _ _ => AttemptOutcome.body apiErrorBody

/-- A body passing the transport status check but missing the required
`message` field of the Result Page schema. -/
def badShapeBody : Json := Json.obj [("statuscode", Json.str "1")]

/-- A transport that always delivers `badShapeBody`. -/
def tBadShape : String → Nat → AttemptOutcome :=
  fun _ _ => AttemptOutcome.body badShapeBody

/-- A fully successful response body. -/
def goodBody : Json :=
  Json.obj [("message", Json.str "Success"), ("statuscode", Json.str "1"),
            ("common", Json.obj [("total_records_found", Json.num 37)])]

/-- A transport that always delivers `goodBody`. -/
def tGood : String → Nat → AttemptOutcome :=
  fun _ _ => AttemptOutcome.body goodBody

/-- Per-attempt outcomes: timeouts on attempts 1 and 2, success on 3. -/
def outcomeTimeoutsThenGood : Nat → AttemptOutcome :=
  fun n => if n < 3 then AttemptOutcome.timeout "read timeout"
           else AttemptOutcome.body goodBody

/-- Per-attempt outcomes: timeout on every attempt. -/
def outcomeAllTimeout : Nat → AttemptOutcome :=
  fun _ => AttemptOutcome.timeout "read timeout"

/-- Per-attempt outcomes: a network error on attempt 1, success on 2. -/
def outcomeNetThenGood : Nat → AttemptOutcome :=
  fun n => if n == 1 then AttemptOutcome.networkError "connection reset"
           else AttemptOutcome.body goodBody

/-- Per-attempt outcomes: an API-error body on every attempt. -/
def outcomeApiError : Nat → AttemptOutcome :=
  fun _ => AttemptOutcome.body apiErrorBody

/-- Per-attempt outcomes: a non-JSON body on every attempt. -/
def outcomeBadJson : Nat → AttemptOutcome :=
  fun _ => AttemptOutcome.invalidJson "Expecting value"

/-- A listing JSON object whose `Jobid` is the empty string but which
is otherwise valid. -/
def cexListingJson : Json :=
  Json.obj [("Jobid", Json.str ""), ("jobTitle", Json.str "Backend Engineer"),
            ("companyName", Json.str "Acme Ltd")]

/-- The listing `cexListingJson` parses to. -/
def cexListing : SearchResult :=
  { Jobid := "", jobTitle := "Backend Engineer", companyName := "Acme Ltd" }

/-- A listing with a nonempty identifier, for the URL-derivation
witness. -/
def urlWitnessListing : SearchResult :=
  { Jobid := "12345", jobTitle := "Data Engineer", companyName := "Beta Inc" }

/-- The field list of a response body with the regular sequence
absent, the premium sequence present and nonempty, and a `common`
object carrying only one of the summary counts. -/
def resultPageWitnessFields : List (String × Json) :=
  [("message", Json.str "success"), ("statuscode", Json.str "1"),
   ("premiumData", Json.arr [Json.obj
      [("Jobid", Json.str "99"), ("jobTitle", Json.str "Pharmacist"),
       ("companyName", Json.str "City Hospital")]]),
   ("common", Json.obj [("totalpages", Json.num 8)])]

/-- The `common` field list of `resultPageWitnessFields`. -/
def commonWitnessFields : List (String × Json) := [("totalpages", Json.num 8)]

/-- The listing carried by `resultPageWitnessFields`. -/
def premiumWitnessListing : SearchResult :=
  { Jobid := "99", jobTitle := "Pharmacist", companyName := "City Hospital" }

/-! ## Theorems -/

/-- The range branch of `build_search_url` in closed form, for
non-negative endpoints. -/
lemma rangeSegment_eq (a b : Int) (h1 : 0 ≤ a) (h2 : 0 ≤ b) :
    rangeSegment a b =
      if a = 0 ∧ b = 0 then "" else toString a ++ "/" ++ toString b := by
  have hc : (a > 0 ∨ b > 0) ↔ ¬(a = 0 ∧ b = 0) := by omega
  rw [rangeSegment, if_congr hc rfl rfl, ite_not]

/-- Claim C1: for every Filter Set (whose range endpoints are
non-negative by the data model), each encoded range segment (age,
salary, experience) of `build_search_url` is the empty string when
both endpoints are zero, and is the literal `"<start>/<end>"` when at
least one endpoint is nonzero; the URL decomposes around exactly these
segments. -/
theorem build_search_url_range_segments (fs : FilterSet)
    (ha1 : 0 ≤ fs.age_start) (ha2 : 0 ≤ fs.age_end)
    (hs1 : 0 ≤ fs.salary_start) (hs2 : 0 ≤ fs.salary_end)
    (he1 : 0 ≤ fs.experience_start) (he2 : 0 ≤ fs.experience_end) :
    (rangeSegment fs.age_start fs.age_end =
      if fs.age_start = 0 ∧ fs.age_end = 0 then ""
      else toString fs.age_start ++ "/" ++ toString fs.age_end) ∧
    (rangeSegment fs.salary_start fs.salary_end =
      if fs.salary_start = 0 ∧ fs.salary_end = 0 then ""
      else toString fs.salary_start ++ "/" ++ toString fs.salary_end) ∧
    (rangeSegment fs.experience_start fs.experience_end =
      if fs.experience_start = 0 ∧ fs.experience_end = 0 then ""
      else toString fs.experience_start ++ "/" ++ toString fs.experience_end) ∧
    build_search_url fs =
      urlHead ++ locationParam fs.location ++
      urlMidA fs ++ rangeSegment fs.age_start fs.age_end ++
      urlMidB ++ rangeSegment fs.salary_start fs.salary_end ++
      urlMidC ++ rangeSegment fs.experience_start fs.experience_end ++
      urlTail fs :=
  ⟨rangeSegment_eq _ _ ha1 ha2, rangeSegment_eq _ _ hs1 hs2,
   rangeSegment_eq _ _ he1 he2, rfl⟩

/-- Witness for C1 at a concrete Filter Set with age 18-30, salary
0-50000 and experience 0-0. -/
theorem build_search_url_range_segments_witness :
    (rangeSegment fsRanges.age_start fsRanges.age_end =
      if fsRanges.age_start = 0 ∧ fsRanges.age_end = 0 then ""
      else toString fsRanges.age_start ++ "/" ++ toString fsRanges.age_end) ∧
    (rangeSegment fsRanges.salary_start fsRanges.salary_end =
      if fsRanges.salary_start = 0 ∧ fsRanges.salary_end = 0 then ""
      else toString fsRanges.salary_start ++ "/" ++ toString fsRanges.salary_end) ∧
    (rangeSegment fsRanges.experience_start fsRanges.experience_end =
      if fsRanges.experience_start = 0 ∧ fsRanges.experience_end = 0 then ""
      else toString fsRanges.experience_start ++ "/" ++ toString fsRanges.experience_end) ∧
    build_search_url fsRanges =
      urlHead ++ locationParam fsRanges.location ++
      urlMidA fsRanges ++ rangeSegment fsRanges.age_start fsRanges.age_end ++
      urlMidB ++ rangeSegment fsRanges.salary_start fsRanges.salary_end ++
      urlMidC ++ rangeSegment fsRanges.experience_start fsRanges.experience_end ++
      urlTail fsRanges :=
  build_search_url_range_segments fsRanges (by decide) (by decide) (by decide)
    (by decide) (by decide) (by decide)

/-- Claim C2: a parsed Result Page `is_success()` exactly when the
status code is the sentinel `"1"` and the message is `"success"`
case-insensitively; a deviation in either field makes it false. -/
theorem is_success_iff_sentinel_and_message (r : SearchResults) :
    r.is_success = true ↔ (r.statuscode = "1" ∧ pyLower r.message = "success") := by
  simp [SearchResults.is_success]

/-- Claim C3: `search_jobs` with an empty-after-trim keyword, a page
below 1, or a page size outside [1,100] fails with a `ValueError` and
its result does not depend on the transport at all — no network call
is made, so all three checks happen before any network activity. -/
theorem search_jobs_invalid_input_no_network (fs : FilterSet)
    (t t' : String → Nat → AttemptOutcome)
    (h : pyStrip fs.keyword = "" ∨ fs.page < 1 ∨
         fs.results_per_page < 1 ∨ 100 < fs.results_per_page) :
    (∃ m, search_jobs fs t = Except.error (PyExc.valueError m)) ∧
    search_jobs fs t = search_jobs fs t' := by
  have key : ∃ m, ∀ tr : String → Nat → AttemptOutcome,
      search_jobs fs tr = Except.error (PyExc.valueError m) := by
    by_cases c1 : (fs.keyword == "" || pyStrip fs.keyword == "") = true
    · exact ⟨"Keyword parameter is required and cannot be empty",
        fun tr => by simp only [search_jobs, c1, if_true]⟩
    · by_cases c2 : fs.page < 1
      · refine ⟨"Page number must be >= 1", fun tr => ?_⟩
        simp only [search_jobs, c1, Bool.false_eq_true, if_false, c2, if_true]
      · by_cases c3 : (fs.results_per_page < 1 || fs.results_per_page > 100) = true
        · refine ⟨"Results per page must be between 1 and 100", fun tr => ?_⟩
          simp only [search_jobs, c1, Bool.false_eq_true, if_false, c2, c3, if_true]
        · exfalso
          simp only [Bool.or_eq_true, beq_iff_eq, decide_eq_true_eq, not_or] at c1 c3
          rcases h with h | h | h | h
          · exact c1.2 h
          · exact c2 h
          · exact c3.1 h
          · exact c3.2 h
  obtain ⟨m, hm⟩ := key
  exact ⟨⟨m, hm t⟩, (hm t).trans (hm t').symm⟩

/-- Witness for C3: a whitespace-only keyword is rejected identically
under two different transports. -/
theorem search_jobs_invalid_input_no_network_witness :
    (∃ m, search_jobs fsBlankKeyword tGood = Except.error (PyExc.valueError m)) ∧
    search_jobs fsBlankKeyword tGood = search_jobs fsBlankKeyword tTimeoutAll :=
  search_jobs_invalid_input_no_network fsBlankKeyword tGood tTimeoutAll
    (Or.inl (by decide))

/-- Claim C4: transient transport failures (timeouts, network errors)
are retried up to `MAX_RETRIES` attempts: timeouts on the first
`MAX_RETRIES - 1` attempts followed by success yield the successful
result on attempt `MAX_RETRIES`; timeouts on all attempts re-raise the
final timeout unchanged in kind after exactly `MAX_RETRIES` attempts;
API-level error results and JSON-format errors are never retried —
they surface after exactly one attempt. -/
theorem api_get_retry_discipline :
    (∀ (outcome : Nat → AttemptOutcome) (m₁ m₂ : String) (j : Json),
        outcome 1 = AttemptOutcome.timeout m₁ →
        outcome 2 = AttemptOutcome.timeout m₂ →
        outcome 3 = AttemptOutcome.body j →
        apiStatusCheck j = Except.ok j →
        api_get outcome = (Except.ok j, MAX_RETRIES)) ∧
    (∀ (outcome : Nat → AttemptOutcome) (m₁ m₂ m₃ : String),
        outcome 1 = AttemptOutcome.timeout m₁ →
        outcome 2 = AttemptOutcome.timeout m₂ →
        outcome 3 = AttemptOutcome.timeout m₃ →
        api_get outcome = (Except.error (PyExc.timeoutError m₃), MAX_RETRIES)) ∧
    (∀ (outcome : Nat → AttemptOutcome) (m : String) (j : Json),
        outcome 1 = AttemptOutcome.networkError m →
        outcome 2 = AttemptOutcome.body j →
        apiStatusCheck j = Except.ok j →
        api_get outcome = (Except.ok j, 2)) ∧
    (∀ (outcome : Nat → AttemptOutcome) (j : Json) (m : String),
        outcome 1 = AttemptOutcome.body j →
        apiStatusCheck j = Except.error (PyExc.runtimeError m) →
        api_get outcome = (Except.error (PyExc.runtimeError m), 1)) ∧
    (∀ (outcome : Nat → AttemptOutcome) (m : String),
        outcome 1 = AttemptOutcome.invalidJson m →
        api_get outcome =
          (Except.error (PyExc.valueError ("API returned invalid JSON: " ++ m)), 1)) := by
  refine ⟨?_, ?_, ?_, ?_, ?_⟩
  · intro outcome m₁ m₂ j h1 h2 h3 hok
    show apiGetAux outcome 1 3 = _
    simp only [apiGetAux, h1, h2, h3, singleAttempt, retryable, hok]
    norm_num [MAX_RETRIES]
  · intro outcome m₁ m₂ m₃ h1 h2 h3
    show apiGetAux outcome 1 3 = _
    simp only [apiGetAux, h1, h2, h3, singleAttempt, retryable]
    norm_num [MAX_RETRIES]
  · intro outcome m j h1 h2 hok
    show apiGetAux outcome 1 3 = _
    simp only [apiGetAux, h1, h2, singleAttempt, retryable, hok]
    norm_num
  · intro outcome j m h1 hstat
    show apiGetAux outcome 1 3 = _
    simp only [apiGetAux, h1, singleAttempt, retryable, hstat]
    rfl
  · intro outcome m h1
    show apiGetAux outcome 1 3 = _
    simp only [apiGetAux, h1, singleAttempt, retryable]
    rfl

/-- Witness for C4 at concrete outcome sequences. -/
theorem api_get_retry_discipline_witness :
    api_get outcomeTimeoutsThenGood = (Except.ok goodBody, MAX_RETRIES) ∧
    api_get outcomeAllTimeout =
      (Except.error (PyExc.timeoutError "read timeout"), MAX_RETRIES) ∧
    api_get outcomeNetThenGood = (Except.ok goodBody, 2) ∧
    api_get outcomeApiError =
      (Except.error (PyExc.runtimeError "API error: Invalid Keyword"), 1) ∧
    api_get outcomeBadJson =
      (Except.error (PyExc.valueError ("API returned invalid JSON: " ++ "Expecting value")), 1) :=
  ⟨api_get_retry_discipline.1 outcomeTimeoutsThenGood "read timeout" "read timeout"
      goodBody rfl rfl rfl rfl,
   api_get_retry_discipline.2.1 outcomeAllTimeout "read timeout" "read timeout"
      "read timeout" rfl rfl rfl,
   api_get_retry_discipline.2.2.1 outcomeNetThenGood "connection reset" goodBody
      rfl rfl rfl,
   api_get_retry_discipline.2.2.2.1 outcomeApiError apiErrorBody
      "API error: Invalid Keyword" rfl rfl,
   api_get_retry_discipline.2.2.2.2 outcomeBadJson "Expecting value" rfl⟩

/-- Claim C5: the four error kinds — validation, transport, API,
format — are all caller-visible at the `search_jobs` interface and
mutually distinguishable (validation and format errors share the
Python type `ValueError` and are told apart by the fixed message
prefixes attached to format errors); none is silently swallowed, and
a well-formed page flows through as a success value. -/
theorem search_jobs_error_taxonomy :
    (search_jobs fsBlankKeyword tGood =
        Except.error (PyExc.valueError "Keyword parameter is required and cannot be empty") ∧
      classifyExc (PyExc.valueError "Keyword parameter is required and cannot be empty") =
        ErrKind.validation) ∧
    (search_jobs fsValid tTimeoutAll =
        Except.error (PyExc.timeoutError "read timeout") ∧
      classifyExc (PyExc.timeoutError "read timeout") = ErrKind.transport) ∧
    (search_jobs fsValid tApiError =
        Except.error (PyExc.runtimeError "API error: Invalid Keyword") ∧
      classifyExc (PyExc.runtimeError "API error: Invalid Keyword") = ErrKind.api) ∧
    (search_jobs fsValid tBadShape =
        Except.error (PyExc.valueError "Invalid API response format: message: field required") ∧
      classifyExc (PyExc.valueError "Invalid API response format: message: field required") =
        ErrKind.format) ∧
    (search_jobs fsValid tGood =
        Except.ok { message := "Success", statuscode := "1", data := [], premiumData := [],
                    common := { total_records_found := 37 } }) ∧
    ([ErrKind.validation, ErrKind.transport, ErrKind.api, ErrKind.format].Pairwise (· ≠ ·)) :=
  ⟨⟨rfl, rfl⟩, ⟨rfl, rfl⟩, ⟨rfl, rfl⟩, ⟨rfl, rfl⟩, rfl, by decide⟩

/-- Claim C6: each listing sequence and each summary count of a
Result Page is parsed independently of the others — an absent
sequence field yields the empty sequence and is never an error, and a
summary count absent from the `common` object defaults to zero,
regardless of what the other fields hold.  Stated as: an absent
sequence parses to `Except.ok []` (part 1); `parseSearchResults`
composes the two independently parsed sequences, so either one absent
alone gives `[]` for that field (part 2); an absent `common` field
parses to its declared default (part 3, the three counts default to
`0`); and `parseCommonFilters` composes the independently parsed
counts (part 4). -/
theorem result_page_missing_fields_default :
    (∀ key : String, parseResultList none key = Except.ok []) ∧
    (∀ (flds : List (String × Json)) (msg sc : String) (cj : Json) (c : CommonFilters)
        (dd pd : List SearchResult),
        lookupDict flds "message" = some (Json.str msg) →
        lookupDict flds "statuscode" = some (Json.str sc) →
        parseResultList (lookupDict flds "data") "data" = Except.ok dd →
        parseResultList (lookupDict flds "premiumData") "premiumData" = Except.ok pd →
        lookupDict flds "common" = some cj →
        parseCommonFilters cj = Except.ok c →
        parseSearchResults (Json.obj flds) =
          Except.ok { message := msg, statuscode := sc, data := dd,
                      premiumData := pd, common := c }) ∧
    (∀ (cflds : List (String × Json)) (key : String) (d : Int),
        lookupDict cflds key = none → optIntField cflds key d = Except.ok d) ∧
    (∀ (cflds : List (String × Json)) (tr tp tv : Int) (sh : String),
        optIntField cflds "total_records_found" 0 = Except.ok tr →
        optStrField cflds "showd" "1" = Except.ok sh →
        optIntField cflds "totalpages" 0 = Except.ok tp →
        optIntField cflds "total_vacancies" 0 = Except.ok tv →
        parseCommonFilters (Json.obj cflds) =
          Except.ok { total_records_found := tr, showd := sh,
                      totalpages := tp, total_vacancies := tv }) := by
  refine ⟨?_, ?_, ?_, ?_⟩
  · intro key
    rfl
  · intro flds msg sc cj c dd pd hm hs hd hp hc hcc
    simp only [parseSearchResults, reqStrField, hm, hs, hd, hp, hc, hcc,
      Bind.bind, Except.bind]
  · intro cflds key d h
    simp [optIntField, h]
  · intro cflds tr tp tv sh h1 h2 h3 h4
    simp only [parseCommonFilters, h1, h2, h3, h4, Bind.bind, Except.bind]

/-- Witness for C6: a body with `data` absent but `premiumData`
present and nonempty parses to a page with `data = []` and the premium
listing kept, while its `common` object carries only `totalpages`, so
the other two counts independently default to zero. -/
theorem result_page_missing_fields_default_witness :
    parseResultList none "data" = Except.ok [] ∧
    parseSearchResults (Json.obj resultPageWitnessFields) =
      Except.ok { message := "success", statuscode := "1", data := [],
                  premiumData := [premiumWitnessListing],
                  common := { total_records_found := 0, showd := "1",
                              totalpages := 8, total_vacancies := 0 } } ∧
    optIntField commonWitnessFields "total_records_found" 0 = Except.ok 0 ∧
    optIntField commonWitnessFields "total_vacancies" 0 = Except.ok 0 ∧
    parseCommonFilters (Json.obj commonWitnessFields) =
      Except.ok { total_records_found := 0, showd := "1",
                  totalpages := 8, total_vacancies := 0 } :=
  ⟨result_page_missing_fields_default.1 "data",
   result_page_missing_fields_default.2.1 resultPageWitnessFields "success" "1"
      (Json.obj commonWitnessFields)
      { total_records_found := 0, showd := "1", totalpages := 8, total_vacancies := 0 }
      [] [premiumWitnessListing] rfl rfl rfl rfl rfl rfl,
   result_page_missing_fields_default.2.2.1 commonWitnessFields "total_records_found" 0 rfl,
   result_page_missing_fields_default.2.2.1 commonWitnessFields "total_vacancies" 0 rfl,
   result_page_missing_fields_default.2.2.2 commonWitnessFields 0 8 0 "1" rfl rfl rfl rfl⟩

/-- Counterexample to C7 as stated: a listing whose `Jobid` is the
empty string is constructed successfully — the code places no
non-emptiness constraint on the identifier. -/
theorem listing_empty_identifier_counterexample :
    parseSearchResult cexListingJson = Except.ok cexListing ∧ cexListing.Jobid = "" :=
  ⟨rfl, rfl⟩

/-- Claim C7 (amended): the identifier field is required — a listing
without it fails to construct — and the job URL is always derivable as
the deterministic function `BASE_URL ++ "/jobs/details/" ++ identifier`
of the identifier and the fixed base address, never stored separately;
the identifier may however be the empty string. -/
theorem listing_required_identifier_and_derived_url (r : SearchResult)
    (flds : List (String × Json)) (h : lookupDict flds "Jobid" = none) :
    r.get_job_url = BASE_URL ++ "/jobs/details/" ++ r.Jobid ∧
    ∃ e, parseSearchResult (Json.obj flds) = Except.error e := by
  refine ⟨rfl, ?_⟩
  simp [parseSearchResult, reqStrField, h, Bind.bind, Except.bind]

/-- Witness for C7 (amended): URL derivation on a concrete listing,
and construction failure on a body with no `Jobid`. -/
theorem listing_required_identifier_and_derived_url_witness :
    urlWitnessListing.get_job_url =
      BASE_URL ++ "/jobs/details/" ++ urlWitnessListing.Jobid ∧
    ∃ e, parseSearchResult (Json.obj []) = Except.error e :=
  listing_required_identifier_and_derived_url urlWitnessListing [] rfl

/-- Claim C8: for every location name that is empty or absent from the
city index, `build_search_url` encodes the location parameter as the
empty string and never fails; the URL decomposes around exactly that
parameter. -/
theorem build_search_url_unknown_location_empty (fs : FilterSet)
    (h : fs.location = "" ∨ get_city_id fs.location = none) :
    locationParam fs.location = "" ∧
    build_search_url fs =
      urlHead ++ locationParam fs.location ++
      urlMidA fs ++ rangeSegment fs.age_start fs.age_end ++
      urlMidB ++ rangeSegment fs.salary_start fs.salary_end ++
      urlMidC ++ rangeSegment fs.experience_start fs.experience_end ++
      urlTail fs := by
  refine ⟨?_, rfl⟩
  rcases h with h | h
  · simp [locationParam, h]
  · by_cases he : fs.location = "" <;> simp [locationParam, he, h]

/-- Witness for C8 at the unknown location name `"Atlantis"`. -/
theorem build_search_url_unknown_location_empty_witness :
    locationParam fsUnknownLocation.location = "" ∧
    build_search_url fsUnknownLocation =
      urlHead ++ locationParam fsUnknownLocation.location ++
      urlMidA fsUnknownLocation ++
      rangeSegment fsUnknownLocation.age_start fsUnknownLocation.age_end ++
      urlMidB ++ rangeSegment fsUnknownLocation.salary_start fsUnknownLocation.salary_end ++
      urlMidC ++
      rangeSegment fsUnknownLocation.experience_start fsUnknownLocation.experience_end ++
      urlTail fsUnknownLocation :=
  build_search_url_unknown_location_empty fsUnknownLocation (Or.inr (by decide))

/-- Claim C9: `get_city_id` and `get_city_name` are inverse on every
entry of the static city table — resolving any canonical name and
mapping the id back returns that canonical name. -/
theorem city_table_roundtrip : ∀ e ∈ CITY_ID_MAP,
    (get_city_id e.name).bind get_city_name = some e.name := by decide

/-- Witness for C9 at the table entry for Dhaka. -/
theorem city_table_roundtrip_witness :
    (⟨"14", "Dhaka"⟩ : CityEntry) ∈ CITY_ID_MAP ∧
    (get_city_id (CityEntry.name ⟨"14", "Dhaka"⟩)).bind get_city_name =
      some (CityEntry.name ⟨"14", "Dhaka"⟩) :=
  ⟨by decide, city_table_roundtrip ⟨"14", "Dhaka"⟩ (by decide)⟩

/-- Claim C10: the transport's API-error check fires exactly when the
decoded body is a dict whose `statuscode` is present, truthy, and not
equal to `"1"`; a missing or empty status code, or a non-dict body such
as a top-level array, is returned without an API error, and a page with
an empty status code has `is_success()` false. -/
theorem api_status_check_scope :
    (∀ (flds : List (String × Json)) (v : Json),
        lookupDict flds "statuscode" = some v →
        ((∃ m, apiStatusCheck (Json.obj flds) = Except.error (PyExc.runtimeError m)) ↔
          (pyTruthy v = true ∧ eqStrOne v = false))) ∧
    (∀ flds : List (String × Json),
        lookupDict flds "statuscode" = none →
        apiStatusCheck (Json.obj flds) = Except.ok (Json.obj flds)) ∧
    (∀ flds : List (String × Json),
        lookupDict flds "statuscode" = some (Json.str "") →
        apiStatusCheck (Json.obj flds) = Except.ok (Json.obj flds)) ∧
    (∀ xs : List Json, apiStatusCheck (Json.arr xs) = Except.ok (Json.arr xs)) ∧
    (∀ r : SearchResults, r.statuscode = "" → r.is_success = false) := by
  refine ⟨?_, ?_, ?_, ?_, ?_⟩
  · intro flds v hv
    simp only [apiStatusCheck, hv]
    by_cases hb : (pyTruthy v && !eqStrOne v) = true
    · simp only [hb, if_true]
      constructor
      · intro _
        simpa [Bool.and_eq_true, Bool.not_eq_true] using hb
      · intro _
        exact ⟨_, rfl⟩
    · simp only [hb, if_false]
      constructor
      · rintro ⟨m, hm⟩
        exact absurd hm (by simp)
      · intro ⟨h1, h2⟩
        exact absurd (by simp [h1, h2] : (pyTruthy v && !eqStrOne v) = true) hb
  · intro flds h
    simp [apiStatusCheck, h]
  · intro flds h
    simp [apiStatusCheck, h, pyTruthy]
  · intro xs
    simp [apiStatusCheck]
  · intro r h
    simp [SearchResults.is_success, h]

/-- Witness for C10 at concrete bodies: status `"0"` (fires), missing
status, empty status, a top-level array, and a parsed page with empty
status code. -/
theorem api_status_check_scope_witness :
    ((∃ m, apiStatusCheck (Json.obj [("statuscode", Json.str "0")]) =
        Except.error (PyExc.runtimeError m)) ↔
      (pyTruthy (Json.str "0") = true ∧ eqStrOne (Json.str "0") = false)) ∧
    apiStatusCheck (Json.obj [("message", Json.str "ok")]) =
      Except.ok (Json.obj [("message", Json.str "ok")]) ∧
    apiStatusCheck (Json.obj [("statuscode", Json.str "")]) =
      Except.ok (Json.obj [("statuscode", Json.str "")]) ∧
    apiStatusCheck (Json.arr [Json.num 1]) = Except.ok (Json.arr [Json.num 1]) ∧
    SearchResults.is_success { message := "success", statuscode := "", common := {} } = false :=
  ⟨api_status_check_scope.1 [("statuscode", Json.str "0")] (Json.str "0") rfl,
   api_status_check_scope.2.1 [("message", Json.str "ok")] rfl,
   api_status_check_scope.2.2.1 [("statuscode", Json.str "")] rfl,
   api_status_check_scope.2.2.2.1 [Json.num 1],
   api_status_check_scope.2.2.2.2 { message := "success", statuscode := "", common := {} } rfl⟩
